import Mathlib

/-!
Verification of the quantitative modeling engine of the
`streamlit-oil-gas-calculator` repository
(`src/streamlit_oil_gas_app.py`).

The engine consists of four components:

* `calculate_oil_gas_model` (lines 60-135): the deterministic 60-month
  decline-curve cash-flow model;
* `calculate_irr_scipy` (lines 273-282): the IRR solver wrapping
  `scipy.optimize.fsolve`;
* `run_monte_carlo_simulation` (lines 284-345): the Monte Carlo driver;
* `create_risk_assessment` (lines 437-470): the risk-statistics aggregator.

All exact arithmetic in the Python source is carried out here over `ℚ`.
The two genuinely non-rational / non-deterministic ingredients are modelled
explicitly:

* `scipy.optimize.fsolve` is an external iterative root-finder; its call
  is modelled as an oracle outcome of type `FsolveResult`.  Without
  `full_output` (as on line 279), fsolve returns the last iterate even
  when it did not converge (it only emits a RuntimeWarning), so an
  outcome is either `returned converged estimate` — scipy handed back
  `estimate`, with `converged` recording whether the root-finder actually
  converged, a flag the source never reads — or `raised`, a genuine
  exception, which the source catches with `except: return 0`.
* IEEE-754 special values produced by numpy/pandas (NaN from the sample
  standard deviation of fewer than two values, `float('inf')` from the
  coefficient of variation) are modelled by the inductive type `PVal`
  with constructors `nan`, `inf` and `fin` over `ℝ` (so that the standard
  deviation can be the exact square root of the sample variance).
-/

/-- The `InvestmentParameters` record: the five numeric inputs of
`calculate_oil_gas_model(oil_price, gas_price, initial_production,
decline_rate, discount_rate)` (line 60).  `decline_rate` and
`discount_rate` are given in percent, exactly as the sliders pass them;
the function itself divides them by 100 (lines 68-69). -/
structure Params where
  oil_price : ℚ
  gas_price : ℚ
  initial_production : ℚ
  decline_rate : ℚ
  discount_rate : ℚ
deriving DecidableEq

/-- Line 76: `initial_production * ((1 - decline_rate) ** (month - 1))`,
after line 68 has replaced `decline_rate` by `decline_rate / 100`.
Months are 1-based (`months = list(range(1, 61))`, line 72). -/
def oilProduction (p : Params) (month : ℕ) : ℚ :=
  p.initial_production * (1 - p.decline_rate / 100) ^ (month - 1)

/-- Line 77: `df['Gas_Production'] = df['Oil_Production'] * 6`. -/
def gasProduction (p : Params) (month : ℕ) : ℚ :=
  oilProduction p month * 6

/-- Line 80: `df['Oil_Revenue'] = df['Oil_Production'] * oil_price / 1000`. -/
def oilRevenue (p : Params) (month : ℕ) : ℚ :=
  oilProduction p month * p.oil_price / 1000

/-- Line 81: `df['Gas_Revenue'] = df['Gas_Production'] * gas_price / 1000`. -/
def gasRevenue (p : Params) (month : ℕ) : ℚ :=
  gasProduction p month * p.gas_price / 1000

/-- Line 82: `df['Total_Revenue'] = df['Oil_Revenue'] + df['Gas_Revenue']`. -/
def totalRevenue (p : Params) (month : ℕ) : ℚ :=
  oilRevenue p month + gasRevenue p month

/-- Line 85: `base_opex = 15`. -/
def base_opex : ℚ := 15

/-- Line 86: `cost_escalation = 0.025`. -/
def cost_escalation : ℚ := 0.025

/-- Line 87: `base_opex * ((1 + cost_escalation/12) ** (month - 1))`. -/
def operatingExpenses (month : ℕ) : ℚ :=
  base_opex * (1 + cost_escalation / 12) ^ (month - 1)

/-- Line 88: `df['Severance_Tax'] = df['Total_Revenue'] * 0.075`. -/
def severanceTax (p : Params) (month : ℕ) : ℚ :=
  totalRevenue p month * 0.075

/-- Line 89: `df['Total_OpEx'] = df['Operating_Expenses'] + df['Severance_Tax']`. -/
def totalOpEx (p : Params) (month : ℕ) : ℚ :=
  operatingExpenses month + severanceTax p month

/-- Line 92: `df['Net_Operating_Income'] = df['Total_Revenue'] - df['Total_OpEx']`. -/
def netOperatingIncome (p : Params) (month : ℕ) : ℚ :=
  totalRevenue p month - totalOpEx p month

/-- Line 95: `capex_schedule = [500, 300, 200, 100, 50, 50] + [10]*18 + [5]*36`. -/
def capexSchedule : List ℚ :=
  [500, 300, 200, 100, 50, 50] ++ List.replicate 18 10 ++ List.replicate 36 5

/-- Line 96: `df['CapEx'] = capex_schedule` — the capital expenditure of
(1-based) `month` is entry `month - 1` of the schedule. -/
def capex (month : ℕ) : ℚ :=
  capexSchedule.getD (month - 1) 0

/-- Line 99: `df['Net_Cash_Flow'] = df['Net_Operating_Income'] - df['CapEx']`. -/
def netCashFlow (p : Params) (month : ℕ) : ℚ :=
  netOperatingIncome p month - capex month

/-- Line 100: `df['Cumulative_Cash_Flow'] = df['Net_Cash_Flow'].cumsum()` —
the cumulative cash flow at (1-based) `month` is the sum of the net cash
flows of months `1 .. month`. -/
def cumulativeCashFlow (p : Params) (month : ℕ) : ℚ :=
  ∑ k ∈ Finset.range month, netCashFlow p (k + 1)

/-- Line 103: `monthly_discount = discount_rate / 12`, after line 69 has
replaced `discount_rate` by `discount_rate / 100`. -/
def monthlyDiscount (p : Params) : ℚ :=
  p.discount_rate / 100 / 12

/-- Line 104: `df['PV_Factor'] = [(1 + monthly_discount) ** -month for month in months]`. -/
def pvFactor (p : Params) (month : ℕ) : ℚ :=
  (1 + monthlyDiscount p) ^ (-(month : ℤ))

/-- Line 105: `df['PV_Cash_Flow'] = df['Net_Cash_Flow'] * df['PV_Factor']`. -/
def pvCashFlow (p : Params) (month : ℕ) : ℚ :=
  netCashFlow p month * pvFactor p month

/-- Line 110: `npv = df['PV_Cash_Flow'].sum()` over the 60 months. -/
def npvOf (p : Params) : ℚ :=
  ∑ m ∈ Finset.range 60, pvCashFlow p (m + 1)

/-- Lines 275-276: the scipy objective
`npv_func(rate) = sum(cf / (1 + rate/12)**(i+1) for i, cf in enumerate(cash_flows))`. -/
def irrNpvAt (cash_flows : List ℚ) (rate : ℚ) : ℚ :=
  ∑ i ∈ Finset.range cash_flows.length,
    cash_flows.getD i 0 / (1 + rate / 12) ^ (i + 1)

/-- Outcome of one `fsolve(npv_func, 0.1)` call (line 279).  Without
`full_output`, scipy's fsolve returns the last iterate whether or not it
converged (non-convergence only emits a RuntimeWarning), so `returned
converged estimate` carries the handed-back `estimate` (an annualized
fraction) together with the convergence flag that the source cannot see;
`raised` is a genuine exception, caught by the bare `except:`. -/
inductive FsolveResult where
  | raised : FsolveResult
  | returned : Bool → ℚ → FsolveResult
deriving DecidableEq

/-- Lines 278-282 of `calculate_irr_scipy`: whenever the fsolve call
returns — converged or not, the code reads only `fsolve(...)[0]` — the
estimate is converted to a percentage and clamped,
`max(min(irr, 1000), -100)`; only when the call raises does the
`except:` branch return `0`. -/
def calculate_irr_scipy (fsolveResult : FsolveResult) : ℚ :=
  match fsolveResult with
  | .returned _ r => max (min (r * 100) 1000) (-100)
  | .raised => 0

/-- An fsolve oracle: for each cash-flow sequence, the outcome of the
`fsolve(npv_func, 0.1)` call on it. -/
def FsolveOracle : Type := List ℚ → FsolveResult

/-- The 60-entry net-cash-flow column `df['Net_Cash_Flow'].values`
(line 121), listed in month order. -/
def ncfList (p : Params) : List ℚ :=
  (List.range 60).map (fun i => netCashFlow p (i + 1))

/-- The 60-entry cumulative-cash-flow column `df['Cumulative_Cash_Flow']`
(line 100), listed in month order. -/
def cumList (p : Params) : List ℚ :=
  (List.range 60).map (fun i => cumulativeCashFlow p (i + 1))

/-- The 60-entry oil-production column `df['Oil_Production']` (line 76). -/
def oilList (p : Params) : List ℚ :=
  (List.range 60).map (fun i => oilProduction p (i + 1))

/-- Lines 114-118: the payback loop
`payback_month = 60` / `for i, cum_cf in enumerate(...): if cum_cf >= 0:
payback_month = i + 1; break` — scan the column with a 0-based counter,
return `i + 1` at the first non-negative entry, `60` if none is found. -/
def paybackLoop : List ℚ → ℕ → ℕ
  | [], _ => 60
  | c :: rest, i => if 0 ≤ c then i + 1 else paybackLoop rest (i + 1)

/-- Lines 113-118 applied to the cumulative-cash-flow column. -/
def payback_month (cums : List ℚ) : ℕ :=
  paybackLoop cums 0

/-- The `SummaryMetrics` record — the `summary` dict of lines 124-133. -/
structure Summary where
  Total_Investment : ℚ
  Total_Revenue : ℚ
  NPV : ℚ
  IRR : ℚ
  Payback_Months : ℕ
  Final_Cumulative_CF : ℚ
  Peak_Production : ℚ
  Final_Production : ℚ
deriving DecidableEq

/-- Lines 107-133: the summary metrics of one evaluation of the model.
`Total_Investment = df['CapEx'].sum()` is the sum of the constant
`capex_schedule` column (line 108); `Peak_Production = df['Oil_Production'].max()`;
`Final_Production = df['Oil_Production'].iloc[-1]`; `IRR` invokes
`calculate_irr_scipy` on the net-cash-flow column through the fsolve
oracle `fs`. -/
def summaryOf (fs : FsolveOracle) (p : Params) : Summary :=
  { Total_Investment := capexSchedule.sum
    Total_Revenue := ∑ m ∈ Finset.range 60, totalRevenue p (m + 1)
    NPV := npvOf p
    IRR := calculate_irr_scipy (fs (ncfList p))
    Payback_Months := payback_month (cumList p)
    Final_Cumulative_CF := cumulativeCashFlow p 60
    Peak_Production := (oilList p).max?.getD 0
    Final_Production := oilProduction p 60 }

/-- The error taxonomy of spec §7 for the projector: the one error the
spec says the projector raises on out-of-domain input. -/
inductive ModelError where
  | invalidParameterError
deriving DecidableEq

/-- The function `calculate_oil_gas_model` (lines 60-135) as an entry point that could
raise: the Python body performs no parameter validation and contains no
`raise`, so the translation always succeeds with the computed summary;
the `Except` layer records that the function never rejects its input. -/
def calculate_oil_gas_model (fs : FsolveOracle) (p : Params) :
    Except ModelError Summary :=
  .ok (summaryOf fs p)

/-- The raw draws of the four `np.random.normal(...)` calls of one Monte
Carlo trial (lines 310-317), supplied as an oracle input: each field is
the value returned by the corresponding normal sample before any
floor/cap is applied. -/
structure Draws where
  oil_price_draw : ℚ
  gas_price_draw : ℚ
  initial_production_draw : ℚ
  decline_rate_draw : ℚ
deriving DecidableEq

/-- Lines 310-321: the parameter set actually used by one trial —
`oil_price = max(20, normal(...))`, `gas_price = max(1, normal(...))`,
`initial_production = max(100, normal(...))`,
`decline_rate = max(0.5, min(10, normal(...)))`, and the model is invoked
with `base_params['discount_rate']` unchanged. -/
def sampleTrialParams (base : Params) (d : Draws) : Params :=
  { oil_price := max 20 d.oil_price_draw
    gas_price := max 1 d.gas_price_draw
    initial_production := max 100 d.initial_production_draw
    decline_rate := max 0.5 (min 10 d.decline_rate_draw)
    discount_rate := base.discount_rate }

/-- One entry of the `results` list (lines 324-335): the sampled
parameters together with the summary metrics of the trial's model run. -/
structure SimRun where
  Oil_Price : ℚ
  Gas_Price : ℚ
  Initial_Production : ℚ
  Decline_Rate : ℚ
  NPV : ℚ
  IRR : ℚ
  Payback_Months : ℕ
  Final_Cumulative_CF : ℚ
  Total_Investment : ℚ
  Total_Revenue : ℚ
deriving DecidableEq

/-- Lines 308-335: one iteration of the Monte Carlo loop — sample and
clamp the four stochastic parameters, run `calculate_oil_gas_model` with
them (and the unperturbed base discount rate), and record the sampled
values with the resulting summary. -/
def mcRun (fs : FsolveOracle) (base : Params) (d : Draws) : SimRun :=
  let p := sampleTrialParams base d
  let s := summaryOf fs p
  { Oil_Price := p.oil_price
    Gas_Price := p.gas_price
    Initial_Production := p.initial_production
    Decline_Rate := p.decline_rate
    NPV := s.NPV
    IRR := s.IRR
    Payback_Months := s.Payback_Months
    Final_Cumulative_CF := s.Final_Cumulative_CF
    Total_Investment := s.Total_Investment
    Total_Revenue := s.Total_Revenue }

/-- The function `run_monte_carlo_simulation` (lines 284-345): one `SimRun` per trial,
in trial order; the randomness of the `num_simulations` trials enters as
the list of per-trial draws.  (The progress-bar calls touch only the UI
and do not affect the result.) -/
def run_monte_carlo_simulation (fs : FsolveOracle) (base : Params)
    (draws : List Draws) : List SimRun :=
  draws.map (mcRun fs base)

/-- The error alphabet of the Risk Aggregator: `emptyBatchError` is the
error that spec §7 declares for statistics over zero trials (no such
error class exists in the source); `indexError` is the `IndexError` that
`np.percentile` raises on an empty array (`cannot do a non-empty take
from an empty axes`). -/
inductive RiskErr where
  | emptyBatchError
  | indexError
deriving DecidableEq

/-- Model of a numpy/pandas `float64` scalar value as produced inside
`create_risk_assessment`: a finite value (kept exact over `ℝ`, so the
standard deviation can be the exact square root of the rational sample
variance), the quiet NaN produced by degenerate statistics, or
`float('inf')` (line 449). -/
inductive PVal where
  | nan : PVal
  | inf : PVal
  | fin : ℝ → PVal

open scoped Classical in
/-- IEEE-style division of `PVal` scalars, as numpy float64 division
behaves: NaN propagates through either operand, `inf / inf = NaN`,
`inf / finite = inf`, `finite / inf = 0`, `0 / 0 = NaN`,
`nonzero / 0 = inf`.  (The sign of an infinite quotient is not tracked;
every division site in `create_risk_assessment` is guarded so that the
denominator is finite positive or an operand is NaN, so the untracked
corners are unreachable there.) -/
noncomputable def PVal.div : PVal → PVal → PVal
  | .nan, _ => .nan
  | _, .nan => .nan
  | .inf, .inf => .nan
  | .inf, .fin _ => .inf
  | .fin _, .inf => .fin 0
  | .fin a, .fin b => if b = 0 then (if a = 0 then .nan else .inf) else .fin (a / b)

/-- Python truth value of `v > 0` for a float `v`: `False` for NaN
(every ordered comparison with NaN is false), `True` for `inf`. -/
def PVal.gtZero : PVal → Prop
  | .nan => False
  | .inf => True
  | .fin x => 0 < x

/-- Python truth value of `v != 0` for a possibly-NaN float modelled as
`Option ℚ` (`none` = NaN): `NaN != 0` is `True`. -/
def optNeZero : Option ℚ → Prop
  | none => True
  | some e => e ≠ 0

/-- Model of `abs(v)` for a possibly-NaN float: NaN propagates. -/
def optAbsP : Option ℚ → PVal
  | none => .nan
  | some e => .fin ((|e| : ℚ) : ℝ)

/-- Inclusion of a possibly-NaN rational float into `PVal`. -/
def PVal.ofOpt : Option ℚ → PVal
  | none => .nan
  | some e => .fin ((e : ℚ) : ℝ)

/-- Pandas `Series.mean()`: NaN (`none`) on an empty series, otherwise
the exact mean. -/
def pandasMean (xs : List ℚ) : Option ℚ :=
  if xs.length = 0 then none else some (xs.sum / xs.length)

/-- Mean of a boolean series, as in `(npv_values > 0).mean()`
(line 442): the fraction of `true` entries, NaN (`none`) when empty. -/
def boolSeriesMean (bs : List Bool) : Option ℚ :=
  if bs.length = 0 then none else some ((bs.countP id : ℚ) / bs.length)

/-- Sample variance with `ddof = 1` (the default of pandas
`Series.std()`), as an exact rational; only applied to series of
length ≥ 2 (shorter series take the NaN branch of `pandasStd`). -/
def sampleVar (xs : List ℚ) : ℚ :=
  (xs.map (fun x => (x - xs.sum / xs.length) ^ 2)).sum / ((xs.length : ℚ) - 1)

/-- Pandas `Series.std()` (lines 448 and 453): with `ddof = 1`, a series
of fewer than two entries has standard deviation NaN (division of the
zero sum of squared deviations by `n - 1 = 0`); otherwise the square
root of the sample variance. -/
noncomputable def pandasStd (xs : List ℚ) : PVal :=
  if xs.length ≤ 1 then .nan else .fin (Real.sqrt ((sampleVar xs : ℚ) : ℝ))

/-- Linear-interpolation percentile core shared by `np.percentile` and
pandas `Series.quantile` (their common default interpolation): with the
data sorted ascending as `s` and `pos = q/100 * (n-1)`, the value
`s[⌊pos⌋] + (pos - ⌊pos⌋) * (s[⌊pos⌋ + 1] - s[⌊pos⌋])` (the second term
vanishing at the top index, where `pos = ⌊pos⌋`). -/
def percentileCore (xs : List ℚ) (q : ℚ) : ℚ :=
  let s := xs.insertionSort (· ≤ ·)
  let pos : ℚ := q / 100 * ((xs.length : ℚ) - 1)
  let i : ℕ := (⌊pos⌋).toNat
  let lo := s.getD i 0
  let hi := s.getD (i + 1) lo
  lo + (pos - (i : ℚ)) * (hi - lo)

/-- Numpy `np.percentile(values, q)` (lines 444 and 467-469): raises
`IndexError` on an empty array, otherwise returns the
linear-interpolated percentile. -/
def npPercentile (xs : List ℚ) (q : ℚ) : Except RiskErr ℚ :=
  match xs with
  | [] => .error .indexError
  | _ :: _ => .ok (percentileCore xs q)

/-- Pandas `Series.quantile(f)` (line 443): NaN (`none`) on an empty
series, otherwise the linear-interpolated percentile at `q = 100 * f`. -/
def pandasQuantile (xs : List ℚ) (f : ℚ) : Option ℚ :=
  match xs with
  | [] => none
  | _ :: _ => some (percentileCore xs (f * 100))

/-- The `RiskReport` dict returned by `create_risk_assessment`
(lines 458-470).  Fields that can be NaN carry `Option ℚ` or `PVal`;
the percentile fields are reached only after `np.percentile` succeeded
and are exact rationals. -/
structure RiskReport where
  Expected_NPV : Option ℚ
  Probability_Positive : Option ℚ
  Probability_Excellent : Option ℚ
  Value_at_Risk_5 : ℚ
  Standard_Deviation : PVal
  Coefficient_of_Variation : PVal
  Downside_Deviation : PVal
  Risk_Adjusted_Return : PVal
  P10_NPV : ℚ
  P50_NPV : ℚ
  P90_NPV : ℚ

open scoped Classical in
/-- The function `create_risk_assessment` (lines 437-470) applied to the
batch's NPV column, line by line:
`probability_positive = (npv_values > 0).mean() * 100`;
`probability_excellent = (npv_values > npv_values.quantile(0.75)).mean() * 100`;
`value_at_risk_5 = np.percentile(npv_values, 5)` (the first statement
that can raise — it raises `IndexError` on an empty batch);
`expected_value = npv_values.mean()`; `std_dev = npv_values.std()`;
`cv = std_dev / abs(expected_value) if expected_value != 0 else float('inf')`;
`downside_returns = npv_values[npv_values < expected_value]`;
`downside_deviation = downside_returns.std() if len(downside_returns) > 0 else 0`;
`sharpe_ratio = expected_value / std_dev if std_dev > 0 else 0`;
and the P10/P50/P90 percentiles of the returned dict. -/
noncomputable def create_risk_assessment (npv_values : List ℚ) :
    Except RiskErr RiskReport := do
  let probability_positive :=
    (boolSeriesMean (npv_values.map (fun x => decide (0 < x)))).map (· * 100)
  let probability_excellent :=
    (boolSeriesMean (npv_values.map (fun x =>
      match pandasQuantile npv_values 0.75 with
      | none => false
      | some qv => decide (qv < x)))).map (· * 100)
  let value_at_risk_5 ← npPercentile npv_values 5
  let expected_value := pandasMean npv_values
  let std_dev := pandasStd npv_values
  let cv : PVal :=
    if optNeZero expected_value then PVal.div std_dev (optAbsP expected_value) else .inf
  let downside_returns := npv_values.filter (fun x =>
    match expected_value with
    | none => false
    | some e => decide (x < e))
  let downside_deviation :=
    if 0 < downside_returns.length then pandasStd downside_returns else .fin 0
  let sharpe_ratio :=
    if PVal.gtZero std_dev then PVal.div (PVal.ofOpt expected_value) std_dev else .fin 0
  let p10 ← npPercentile npv_values 10
  let p50 ← npPercentile npv_values 50
  let p90 ← npPercentile npv_values 90
  return { Expected_NPV := expected_value
           Probability_Positive := probability_positive
           Probability_Excellent := probability_excellent
           Value_at_Risk_5 := value_at_risk_5
           Standard_Deviation := std_dev
           Coefficient_of_Variation := cv
           Downside_Deviation := downside_deviation
           Risk_Adjusted_Return := sharpe_ratio
           P10_NPV := p10
           P50_NPV := p50
           P90_NPV := p90 }

/-- The worked example of spec §8: `oilPrice=65, gasPrice=3.25,
initialProduction=1000, declineRate=1.5, discountRate=10`. -/
def exampleParams : Params :=
  { oil_price := 65
    gas_price := 3.25
    initial_production := 1000
    decline_rate := 1.5
    discount_rate := 10 }

/-- An out-of-domain parameter set (negative oil price) that spec §4.1
says the projector must reject. -/
def invalidParams : Params :=
  { oil_price := -1
    gas_price := 3.25
    initial_production := 1000
    decline_rate := 1.5
    discount_rate := 10 }

/-- A parameter set with a large oil price and zero decline whose very
first month already has non-negative cumulative cash flow, used to
witness the payback characterization. -/
def richParams : Params :=
  { oil_price := 1000
    gas_price := 0
    initial_production := 1000
    decline_rate := 0
    discount_rate := 10 }

/-- A trivially failing fsolve oracle (every call raises), usable
wherever a concrete oracle is needed. -/
def raisingOracle : FsolveOracle := fun _ => .raised

/-- One concrete draw tuple for witnessing the Monte Carlo bounds. -/
def exampleDraws : Draws :=
  { oil_price_draw := 58
    gas_price_draw := 4
    initial_production_draw := 950
    decline_rate_draw := 12 }

/-- The NPV computation of lines 102-110 on an arbitrary cash-flow
stream: each flow is multiplied by the discount factor
`(1 + discount_rate/12) ^ (-month)` of its (1-based) month and the
products are summed.  `discount_rate` is the annualized fractional rate
(the model passes `discount_rate / 100` of the percent input, line 69). -/
def npvOfFlows (cash_flows : List ℚ) (discount_rate : ℚ) : ℚ :=
  ∑ i ∈ Finset.range cash_flows.length,
    cash_flows.getD i 0 * (1 + discount_rate / 12) ^ (-(i + 1 : ℤ))

/-- Geometric decline: with positive initial production and a decline
factor `1 - decline_rate/100` strictly between 0 and 1, production
strictly shrinks from each month (≥ 1) to the next. -/
lemma oilProduction_succ_lt {p : Params} (hp : 0 < p.initial_production)
    (hf0 : 0 < 1 - p.decline_rate / 100) (hf1 : 1 - p.decline_rate / 100 < 1)
    {m : ℕ} (hm : 1 ≤ m) :
    oilProduction p (m + 1) < oilProduction p m := by
  unfold oilProduction
  have h1 : m + 1 - 1 = (m - 1) + 1 := by omega
  rw [h1, pow_succ]
  have hpow : 0 < (1 - p.decline_rate / 100) ^ (m - 1) := pow_pos hf0 _
  have hlt : (1 - p.decline_rate / 100) ^ (m - 1) * (1 - p.decline_rate / 100)
      < (1 - p.decline_rate / 100) ^ (m - 1) := by nlinarith
  exact mul_lt_mul_of_pos_left hlt hp

/-- The payback loop returns its default 60 when every entry of the
column is negative. -/
lemma paybackLoop_eq_of_all_neg (l : List ℚ) :
    ∀ i, (∀ c ∈ l, c < 0) → paybackLoop l i = 60 := by
  induction l with
  | nil => intro i _; rfl
  | cons c rest ih =>
    intro i h
    have hc : ¬ (0 ≤ c) := not_le.mpr (h c (List.mem_cons_self c rest))
    simp only [paybackLoop, if_neg hc]
    exact ih (i + 1) (fun x hx => h x (List.mem_cons_of_mem c hx))

/-- The payback loop started at counter `i` returns `i + j + 1` when
index `j` holds the first non-negative entry of the column. -/
lemma paybackLoop_eq_of_first (l : List ℚ) :
    ∀ (i j : ℕ) (hj : j < l.length), 0 ≤ l.get ⟨j, hj⟩ →
      (∀ k (hk : k < j), l.get ⟨k, hk.trans hj⟩ < 0) →
      paybackLoop l i = i + j + 1 := by
  induction l with
  | nil => intro i j hj _ _; exact absurd hj (by simp)
  | cons c rest ih =>
    intro i j hj hge hneg
    cases j with
    | zero =>
      simp only [List.get] at hge
      simp only [paybackLoop, if_pos hge]
    | succ j' =>
      have hc : c < 0 := by
        have := hneg 0 (Nat.succ_pos j')
        simpa using this
      simp only [paybackLoop, if_neg (not_le.mpr hc)]
      have hj' : j' < rest.length := Nat.lt_of_succ_lt_succ hj
      have hge' : 0 ≤ rest.get ⟨j', hj'⟩ := by simpa using hge
      have hneg' : ∀ k (hk : k < j'), rest.get ⟨k, hk.trans hj'⟩ < 0 := by
        intro k hk
        have := hneg (k + 1) (Nat.succ_lt_succ hk)
        simpa using this
      have := ih (i + 1) j' hj' hge' hneg'
      omega

/-- The cumulative-cash-flow column has one entry per month. -/
lemma cumList_length (p : Params) : (cumList p).length = 60 := by
  simp [cumList]

/-- Entry `i` (0-based) of the cumulative-cash-flow column is the
cumulative cash flow of month `i + 1`. -/
lemma cumList_get (p : Params) (i : ℕ) (hi : i < (cumList p).length) :
    (cumList p).get ⟨i, hi⟩ = cumulativeCashFlow p (i + 1) := by
  simp [cumList]

/-- A constant series has sample variance 0 (each deviation from the
mean vanishes). -/
lemma sampleVar_of_const (xs : List ℚ) (c : ℚ) (hc : ∀ x ∈ xs, x = c) :
    sampleVar xs = 0 := by
  unfold sampleVar
  rcases eq_or_ne xs.length 0 with h0 | h0
  · rw [List.length_eq_zero] at h0
    subst h0
    simp
  · have hlen : ((xs.length : ℚ)) ≠ 0 := by exact_mod_cast h0
    have hsum : xs.sum = (xs.length : ℚ) * c := by
      rw [List.sum_eq_card_nsmul xs c hc]
      simp [nsmul_eq_mul]
    have hmean : xs.sum / (xs.length : ℚ) = c := by
      rw [hsum]
      field_simp
    have hzero : (xs.map (fun x => (x - xs.sum / xs.length) ^ 2)).sum = 0 := by
      apply List.sum_eq_zero
      intro y hy
      rcases List.mem_map.mp hy with ⟨x, hx, rfl⟩
      rw [hmean, hc x hx]
      ring
    rw [hzero, zero_div]

open scoped Classical in
/-- On a non-empty batch, `create_risk_assessment` succeeds and its
statistics fields are the source's expressions. -/
lemma create_risk_assessment_ok (npvs : List ℚ) (h : npvs ≠ []) :
    ∃ r, create_risk_assessment npvs = Except.ok r ∧
      r.Expected_NPV = pandasMean npvs ∧
      r.Standard_Deviation = pandasStd npvs ∧
      r.Coefficient_of_Variation =
        (if optNeZero (pandasMean npvs) then
          PVal.div (pandasStd npvs) (optAbsP (pandasMean npvs)) else .inf) ∧
      r.Risk_Adjusted_Return =
        (if PVal.gtZero (pandasStd npvs) then
          PVal.div (PVal.ofOpt (pandasMean npvs)) (pandasStd npvs) else .fin 0) := by
  cases npvs with
  | nil => exact absurd rfl h
  | cons a t => exact ⟨_, rfl, rfl, rfl, rfl, rfl⟩

/-- On a batch of at least two entries, the standard deviation is the
real square root of the rational sample variance. -/
lemma pandasStd_of_two_le (npvs : List ℚ) (h2 : 2 ≤ npvs.length) :
    pandasStd npvs = .fin (Real.sqrt ((sampleVar npvs : ℚ) : ℝ)) := by
  rw [pandasStd, if_neg (by omega)]

/-- C1: for the worked example (`oilPrice=65, gasPrice=3.25,
initialProduction=1000, declineRate=1.5, discountRate=10`, 60 periods),
period-1 oil production is 1000, period-2 oil production is 985 (the
decline rate is read as a percentage and divided by 100, so the monthly
factor is 0.985), the oil-production sequence is strictly decreasing
from every period on, and the total capital expenditure reported by the
summary is the sum of the declared capex schedule — the constant 1560,
independent of all five market parameters. -/
theorem worked_example_projection (fs : FsolveOracle) :
    oilProduction exampleParams 1 = 1000 ∧
    oilProduction exampleParams 2 = 985 ∧
    (∀ m, 1 ≤ m → oilProduction exampleParams (m + 1) < oilProduction exampleParams m) ∧
    (∀ p : Params, (summaryOf fs p).Total_Investment = capexSchedule.sum ∧
      capexSchedule.sum = 1560) := by
  refine ⟨?_, ?_, ?_, ?_⟩
  · norm_num [oilProduction, exampleParams]
  · norm_num [oilProduction, exampleParams]
  · intro m hm
    apply oilProduction_succ_lt _ _ _ hm
    · norm_num [exampleParams]
    · norm_num [exampleParams]
    · norm_num [exampleParams]
  · intro p
    refine ⟨rfl, ?_⟩
    norm_num [capexSchedule]

/-- Witness for C1: one concrete strict decrease step of the worked
example, obtained from the theorem at `m = 2`. -/
theorem worked_example_projection_witness :
    1 ≤ 2 ∧ oilProduction exampleParams 3 < oilProduction exampleParams 2 :=
  ⟨by norm_num, (worked_example_projection raisingOracle).2.2.1 2 (by norm_num)⟩

/-- C2 counterexample: on the out-of-domain input with `oilPrice = -1`
(a negative price, which the claim says must be rejected with
`InvalidParameterError`), `calculate_oil_gas_model` computes and returns
a projection summary instead of failing. -/
theorem projector_accepts_invalid_counterexample :
    calculate_oil_gas_model raisingOracle invalidParams =
      Except.ok (summaryOf raisingOracle invalidParams) ∧
    calculate_oil_gas_model raisingOracle invalidParams ≠
      Except.error ModelError.invalidParameterError := by
  exact ⟨rfl, by simp [calculate_oil_gas_model]⟩

/-- C2 (amended): the projector performs no domain validation — for
every out-of-domain parameter set (negative oil or gas price,
non-positive initial production, or decline rate ≥ 1) the projection is
computed and returned; no `InvalidParameterError` is ever raised (none
exists in the code, and there is no horizon argument — the horizon is
fixed at 60). -/
theorem projector_no_validation (fs : FsolveOracle) (p : Params)
    (_h : p.oil_price < 0 ∨ p.gas_price < 0 ∨ p.initial_production ≤ 0 ∨
      1 ≤ p.decline_rate) :
    calculate_oil_gas_model fs p = Except.ok (summaryOf fs p) ∧
    calculate_oil_gas_model fs p ≠ Except.error ModelError.invalidParameterError := by
  exact ⟨rfl, by simp [calculate_oil_gas_model]⟩

/-- Witness for the amended C2: the negative-price input is accepted. -/
theorem projector_no_validation_witness :
    (invalidParams.oil_price < 0 ∨ invalidParams.gas_price < 0 ∨
      invalidParams.initial_production ≤ 0 ∨ 1 ≤ invalidParams.decline_rate) ∧
    calculate_oil_gas_model raisingOracle invalidParams =
      Except.ok (summaryOf raisingOracle invalidParams) :=
  ⟨Or.inl (by norm_num [invalidParams]),
    (projector_no_validation raisingOracle invalidParams
      (Or.inl (by norm_num [invalidParams]))).1⟩

/-- C4: for every valid parameter set (positive initial production)
whose fractional decline rate — `decline_rate / 100`, since the Python
argument is in percent (line 68) — lies strictly between 0 and 1, i.e.
whose percent argument lies in (0, 100), oil production strictly
decreases from each period (≥ 1) to the next, and gas production is
exactly 6 times oil production at every period. -/
theorem decline_strict_and_gas_ratio (p : Params)
    (hp : 0 < p.initial_production) (h0 : 0 < p.decline_rate)
    (h1 : p.decline_rate < 100) :
    (∀ m, 1 ≤ m → oilProduction p (m + 1) < oilProduction p m) ∧
    (∀ m, gasProduction p m = 6 * oilProduction p m) := by
  constructor
  · intro m hm
    apply oilProduction_succ_lt hp _ _ hm
    · linarith
    · linarith
  · intro m
    unfold gasProduction
    ring

/-- Witness for C4 at the worked example itself: its percent decline
rate 1.5 is a fractional decline rate of 0.015 ∈ (0, 1). -/
theorem decline_strict_and_gas_ratio_witness :
    (0 < exampleParams.initial_production ∧ 0 < exampleParams.decline_rate ∧
      exampleParams.decline_rate < 100) ∧
    oilProduction exampleParams 2 < oilProduction exampleParams 1 ∧
    gasProduction exampleParams 7 = 6 * oilProduction exampleParams 7 :=
  ⟨⟨by norm_num [exampleParams], by norm_num [exampleParams],
      by norm_num [exampleParams]⟩,
    (decline_strict_and_gas_ratio exampleParams (by norm_num [exampleParams])
      (by norm_num [exampleParams]) (by norm_num [exampleParams])).1 1 le_rfl,
    (decline_strict_and_gas_ratio exampleParams (by norm_num [exampleParams])
      (by norm_num [exampleParams]) (by norm_num [exampleParams])).2 7⟩

/-- C5 counterexample: on a non-convergence outcome in which fsolve
hands back the unconverged iterate 5 (no exception is raised — without
`full_output`, fsolve returns the last iterate with only a
RuntimeWarning), the code returns the clamped iterate, 500 percent, not
the 0 the claim requires. -/
theorem irr_unconverged_counterexample :
    calculate_irr_scipy (.returned false 5) = 500 ∧ (500 : ℚ) ≠ 0 := by
  constructor
  · norm_num [calculate_irr_scipy]
  · norm_num

/-- C5 (amended): for every outcome of the fsolve call the reported IRR
lies in the clamped range [−100, 1000] (percent); the result is exactly
0 when the call raises an exception (the bare `except:` branch); but
when the root-finder merely fails to converge, fsolve returns the last
iterate without raising, and the code returns that unconverged iterate
clamped — the same `max(min(irr, 1000), -100)` as a converged root —
rather than 0. -/
theorem irr_clamp_and_failure_modes (res : FsolveResult) :
    (-100 ≤ calculate_irr_scipy res ∧ calculate_irr_scipy res ≤ 1000) ∧
    (res = .raised → calculate_irr_scipy res = 0) ∧
    (∀ converged r, res = .returned converged r →
      calculate_irr_scipy res = max (min (r * 100) 1000) (-100)) := by
  refine ⟨?_, ?_, ?_⟩
  · cases res with
    | raised => norm_num [calculate_irr_scipy]
    | returned c r =>
      unfold calculate_irr_scipy
      constructor
      · exact le_max_right _ _
      · exact max_le (min_le_right _ _) (by norm_num)
  · intro h
    subst h
    rfl
  · intro converged r h
    subst h
    rfl

/-- Witness for the amended C5 at the unconverged outcome with
iterate 5. -/
theorem irr_clamp_and_failure_modes_witness :
    ((-100 ≤ calculate_irr_scipy (.returned false 5) ∧
        calculate_irr_scipy (.returned false 5) ≤ 1000) ∧
      (FsolveResult.returned false 5 = .raised →
        calculate_irr_scipy (.returned false 5) = 0) ∧
      (∀ converged r, FsolveResult.returned false 5 = .returned converged r →
        calculate_irr_scipy (.returned false 5) =
          max (min (r * 100) 1000) (-100))) :=
  irr_clamp_and_failure_modes (.returned false 5)

/-- C6: every run of the Monte Carlo batch uses clamped sampled
parameters — oil price ≥ 20, gas price ≥ 1, initial production ≥ 100,
decline rate within [0.5, 10] (monthly percent) — and the discount rate
used by every trial is the base discount rate unchanged. -/
theorem monte_carlo_bounds (fs : FsolveOracle) (base : Params)
    (draws : List Draws) :
    (∀ run ∈ run_monte_carlo_simulation fs base draws,
      20 ≤ run.Oil_Price ∧ 1 ≤ run.Gas_Price ∧ 100 ≤ run.Initial_Production ∧
      0.5 ≤ run.Decline_Rate ∧ run.Decline_Rate ≤ 10) ∧
    (∀ d : Draws, (sampleTrialParams base d).discount_rate = base.discount_rate) := by
  constructor
  · intro run hrun
    rcases List.mem_map.mp hrun with ⟨d, _, rfl⟩
    refine ⟨le_max_left _ _, le_max_left _ _, le_max_left _ _, le_max_left _ _, ?_⟩
    exact max_le (by norm_num) (min_le_left _ _)
  · intro d
    rfl

/-- Witness for C6: the single-trial batch built from one concrete draw
tuple satisfies the bounds. -/
theorem monte_carlo_bounds_witness :
    20 ≤ (mcRun raisingOracle exampleParams exampleDraws).Oil_Price ∧
    1 ≤ (mcRun raisingOracle exampleParams exampleDraws).Gas_Price ∧
    100 ≤ (mcRun raisingOracle exampleParams exampleDraws).Initial_Production ∧
    0.5 ≤ (mcRun raisingOracle exampleParams exampleDraws).Decline_Rate ∧
    (mcRun raisingOracle exampleParams exampleDraws).Decline_Rate ≤ 10 :=
  (monte_carlo_bounds raisingOracle exampleParams [exampleDraws]).1
    (mcRun raisingOracle exampleParams exampleDraws)
    (by simp [run_monte_carlo_simulation])

/-- C7: the payback period reported in the summary is the smallest
1-based month at which cumulative net cash flow is non-negative, and it
is exactly the horizon length 60 when cumulative cash flow stays
negative through all 60 months. -/
theorem payback_least_nonneg_month (fs : FsolveOracle) (p : Params) :
    (∀ m, 1 ≤ m → m ≤ 60 → 0 ≤ cumulativeCashFlow p m →
      (∀ k, 1 ≤ k → k < m → cumulativeCashFlow p k < 0) →
      (summaryOf fs p).Payback_Months = m) ∧
    ((∀ m, 1 ≤ m → m ≤ 60 → cumulativeCashFlow p m < 0) →
      (summaryOf fs p).Payback_Months = 60) := by
  have hPB : (summaryOf fs p).Payback_Months = paybackLoop (cumList p) 0 := rfl
  constructor
  · intro m hm1 hm60 hge hneg
    have hj : m - 1 < (cumList p).length := by rw [cumList_length]; omega
    have hget1 : (cumList p).get ⟨m - 1, hj⟩ = cumulativeCashFlow p m := by
      rw [cumList_get]
      congr 1
      omega
    have hfirst := paybackLoop_eq_of_first (cumList p) 0 (m - 1) hj
      (by rw [hget1]; exact hge)
      (by
        intro k hk
        rw [cumList_get]
        exact hneg (k + 1) (by omega) (by omega))
    rw [hPB, hfirst]
    omega
  · intro hneg
    have hall : ∀ c ∈ cumList p, c < 0 := by
      intro c hc
      simp only [cumList, List.mem_map, List.mem_range] at hc
      rcases hc with ⟨i, hi, rfl⟩
      exact hneg (i + 1) (by omega) (by omega)
    rw [hPB]
    exact paybackLoop_eq_of_all_neg (cumList p) 0 hall

/-- Witness for C7: for the high-revenue zero-decline parameter set the
very first month is already cash-positive, so the reported payback
period is month 1. -/
theorem payback_least_nonneg_month_witness :
    (1 ≤ 1 ∧ 1 ≤ 60 ∧ 0 ≤ cumulativeCashFlow richParams 1) ∧
    (summaryOf raisingOracle richParams).Payback_Months = 1 := by
  have h1 : 0 ≤ cumulativeCashFlow richParams 1 := by
    norm_num [cumulativeCashFlow, netCashFlow, netOperatingIncome, totalRevenue,
      oilRevenue, gasRevenue, totalOpEx, operatingExpenses, severanceTax,
      oilProduction, gasProduction, capex, capexSchedule, base_opex,
      cost_escalation, richParams, Finset.sum_range_succ]
  exact ⟨⟨le_rfl, by norm_num, h1⟩,
    (payback_least_nonneg_month raisingOracle richParams).1 1 le_rfl (by norm_num) h1
      (fun k hk1 hk2 => absurd (hk1.trans_lt hk2) (lt_irrefl 1))⟩

/-- C9: for a cash-flow stream whose net flows are all positive,
strictly increasing the annualized discount rate strictly decreases the
NPV computed with the monthly discount factors
`(1 + discount_rate/12) ^ (-month)`. -/
theorem npv_strictly_decreasing_in_discount_rate (cash_flows : List ℚ)
    (r1 r2 : ℚ) (hne : cash_flows ≠ []) (hpos : ∀ cf ∈ cash_flows, 0 < cf)
    (h0 : 0 ≤ r1) (h12 : r1 < r2) :
    npvOfFlows cash_flows r2 < npvOfFlows cash_flows r1 := by
  unfold npvOfFlows
  apply Finset.sum_lt_sum_of_nonempty
  · rw [Finset.nonempty_range_iff]
    simpa using hne
  · intro i hi
    have hib : i < cash_flows.length := Finset.mem_range.mp hi
    have hmem : cash_flows.getD i 0 ∈ cash_flows := by
      rw [List.getD_eq_getElem cash_flows 0 hib]
      exact List.getElem_mem hib
    have hcf : 0 < cash_flows.getD i 0 := hpos _ hmem
    have hx1 : (0 : ℚ) < 1 + r1 / 12 := by linarith
    have hx2 : (0 : ℚ) < 1 + r2 / 12 := by linarith
    apply mul_lt_mul_of_pos_left _ hcf
    rw [zpow_neg, zpow_neg]
    have hpow : (1 + r1 / 12) ^ ((i : ℤ) + 1) < (1 + r2 / 12) ^ ((i : ℤ) + 1) := by
      have hnat : (1 + r1 / 12) ^ (i + 1) < (1 + r2 / 12) ^ (i + 1) :=
        pow_lt_pow_left₀ (by linarith) (le_of_lt hx1) (Nat.succ_ne_zero i)
      have hc1 : ((i : ℤ) + 1) = ((i + 1 : ℕ) : ℤ) := by push_cast; ring
      rw [hc1, zpow_natCast, zpow_natCast]
      exact hnat
    exact inv_strictAnti₀ (zpow_pos hx1 _) hpow

/-- Witness for C9: the single positive flow `[1]` has strictly smaller
NPV at rate 12 than at rate 0. -/
theorem npv_strictly_decreasing_witness :
    (([1] : List ℚ) ≠ [] ∧ (0 : ℚ) ≤ 0 ∧ (0 : ℚ) < 12) ∧
    npvOfFlows [1] 12 < npvOfFlows [1] 0 :=
  ⟨⟨by simp, le_rfl, by norm_num⟩,
    npv_strictly_decreasing_in_discount_rate [1] 0 12 (by simp)
      (by intro cf hcf; simp at hcf; simp [hcf]) le_rfl (by norm_num)⟩

/-- C3 counterexample: applied to the empty batch, the Risk Aggregator
does not fail with `EmptyBatchError` — the error it produces is the
indexing failure of `np.percentile`. -/
theorem risk_empty_not_empty_batch_error :
    create_risk_assessment [] ≠ Except.error RiskErr.emptyBatchError := by
  have h : create_risk_assessment [] = Except.error RiskErr.indexError := rfl
  rw [h]
  simp

/-- C3 (amended): on the empty batch the Risk Aggregator fails, but
with the `IndexError` raised by `np.percentile` on an empty array (the
first raising statement reached), not with a dedicated
`EmptyBatchError`; indeed no input ever produces `EmptyBatchError`,
since that error class does not exist in the code. -/
theorem risk_empty_fails_with_index_error :
    create_risk_assessment [] = Except.error RiskErr.indexError ∧
    ∀ npvs : List ℚ,
      create_risk_assessment npvs ≠ Except.error RiskErr.emptyBatchError := by
  refine ⟨rfl, ?_⟩
  intro npvs
  cases npvs with
  | nil =>
    have h : create_risk_assessment [] = Except.error RiskErr.indexError := rfl
    rw [h]
    simp
  | cons a t =>
    obtain ⟨r, hr, -, -, -, -⟩ := create_risk_assessment_ok (a :: t) (by simp)
    rw [hr]
    simp

/-- C8 counterexample: the batch `[5]` is non-empty and all its NPVs are
equal, yet its reported standard deviation is NaN (pandas `Series.std()`
uses `ddof = 1`, so a single-run batch divides by zero), not 0 as the
claim states. -/
theorem risk_single_run_counterexample :
    (create_risk_assessment [5]).map RiskReport.Standard_Deviation =
      Except.ok PVal.nan ∧
    (Except.ok PVal.nan : Except RiskErr PVal) ≠ Except.ok (PVal.fin 0) := by
  constructor
  · obtain ⟨r, hr, -, hS, -, -⟩ := create_risk_assessment_ok [5] (by simp)
    rw [hr]
    simp only [Except.map]
    rw [hS]
    simp [pandasStd]
  · simp

/-- C8 (amended): for every batch of at least two runs, if all NPVs are
equal then the reported standard deviation is 0 and the risk-adjusted
return is 0; and whenever the standard deviation is nonzero, the
risk-adjusted return equals mean NPV divided by the standard deviation
of NPV.  (A single-run batch instead reports standard deviation NaN —
pandas sample standard deviation with `ddof = 1` — and risk-adjusted
return 0.) -/
theorem risk_constant_batch_and_sharpe (npvs : List ℚ) (h2 : 2 ≤ npvs.length) :
    ((∀ x ∈ npvs, ∀ y ∈ npvs, x = y) →
      (create_risk_assessment npvs).map RiskReport.Standard_Deviation =
        Except.ok (PVal.fin 0) ∧
      (create_risk_assessment npvs).map RiskReport.Risk_Adjusted_Return =
        Except.ok (PVal.fin 0)) ∧
    (pandasStd npvs ≠ PVal.fin 0 →
      (create_risk_assessment npvs).map RiskReport.Risk_Adjusted_Return =
        Except.ok (PVal.div (PVal.ofOpt (pandasMean npvs)) (pandasStd npvs))) := by
  have hne : npvs ≠ [] := by
    intro h
    subst h
    simp at h2
  obtain ⟨r, hr, hE, hS, hCV, hRAR⟩ := create_risk_assessment_ok npvs hne
  constructor
  · intro hconst
    have hvar : sampleVar npvs = 0 := by
      cases npvs with
      | nil => simp at h2
      | cons a t =>
        exact sampleVar_of_const (a :: t) a
          (fun x hx => hconst x hx a (List.mem_cons_self a t))
    have hstd : pandasStd npvs = PVal.fin 0 := by
      rw [pandasStd_of_two_le npvs h2, hvar]
      norm_num
    have hRAR0 : r.Risk_Adjusted_Return = PVal.fin 0 := by
      rw [hRAR, hstd, if_neg]
      simp [PVal.gtZero]
    rw [hr]
    simp only [Except.map]
    rw [hS, hstd, hRAR0]
    exact ⟨rfl, rfl⟩
  · intro hne0
    have hstd : pandasStd npvs = PVal.fin (Real.sqrt ((sampleVar npvs : ℚ) : ℝ)) :=
      pandasStd_of_two_le npvs h2
    have hsne : Real.sqrt ((sampleVar npvs : ℚ) : ℝ) ≠ 0 := by
      intro hz
      apply hne0
      rw [hstd, hz]
    have hspos : (0 : ℝ) < Real.sqrt ((sampleVar npvs : ℚ) : ℝ) :=
      lt_of_le_of_ne (Real.sqrt_nonneg _) (Ne.symm hsne)
    have hgt : PVal.gtZero (pandasStd npvs) := by
      rw [hstd]
      exact hspos
    rw [hr]
    simp only [Except.map]
    rw [hRAR, if_pos hgt]

/-- Witness for the amended C8 at the constant two-run batch `[5, 5]`. -/
theorem risk_constant_batch_witness :
    2 ≤ ([5, 5] : List ℚ).length ∧
    (create_risk_assessment [5, 5]).map RiskReport.Standard_Deviation =
      Except.ok (PVal.fin 0) ∧
    (create_risk_assessment [5, 5]).map RiskReport.Risk_Adjusted_Return =
      Except.ok (PVal.fin 0) := by
  have hconst : ∀ x ∈ ([5, 5] : List ℚ), ∀ y ∈ ([5, 5] : List ℚ), x = y := by
    intro x hx y hy
    simp at hx hy
    rw [hx, hy]
  have h := (risk_constant_batch_and_sharpe [5, 5] (by simp)).1 hconst
  exact ⟨by simp, h.1, h.2⟩

/-- C10: for every non-empty batch, the coefficient of variation
reported by the Risk Aggregator equals the standard deviation of NPV
divided by the absolute value of the mean NPV when the mean is nonzero,
and is the sentinel `float('inf')` — not an error and not 0 — when the
mean NPV is exactly 0. -/
theorem risk_cv_sentinel (npvs : List ℚ) (h : npvs ≠ []) :
    (npvs.sum / (npvs.length : ℚ) ≠ 0 →
      (create_risk_assessment npvs).map RiskReport.Coefficient_of_Variation =
        Except.ok (PVal.div (pandasStd npvs) (optAbsP (pandasMean npvs)))) ∧
    (npvs.sum / (npvs.length : ℚ) = 0 →
      (create_risk_assessment npvs).map RiskReport.Coefficient_of_Variation =
        Except.ok PVal.inf) ∧
    PVal.inf ≠ PVal.fin 0 := by
  obtain ⟨r, hr, hE, hS, hCV, hRAR⟩ := create_risk_assessment_ok npvs h
  have hmean : pandasMean npvs = some (npvs.sum / (npvs.length : ℚ)) := by
    rw [pandasMean, if_neg]
    simpa [List.length_eq_zero] using h
  refine ⟨?_, ?_, by simp⟩
  · intro hne0
    have hcond : optNeZero (pandasMean npvs) := by
      rw [hmean]
      exact hne0
    rw [hr]
    simp only [Except.map]
    rw [hCV, if_pos hcond]
  · intro hzero
    have hcond : ¬ optNeZero (pandasMean npvs) := by
      rw [hmean]
      simp [optNeZero, hzero]
    rw [hr]
    simp only [Except.map]
    rw [hCV, if_neg hcond]

/-- Witness for C10: a zero-mean batch reports infinite coefficient of
variation, a nonzero-mean batch reports the ratio. -/
theorem risk_cv_sentinel_witness :
    (create_risk_assessment [3, -3]).map RiskReport.Coefficient_of_Variation =
      Except.ok PVal.inf ∧
    (create_risk_assessment [2, 4]).map RiskReport.Coefficient_of_Variation =
      Except.ok (PVal.div (pandasStd [2, 4]) (optAbsP (pandasMean [2, 4]))) := by
  constructor
  · exact (risk_cv_sentinel [3, -3] (by simp)).2.1 (by norm_num [List.sum_cons])
  · exact (risk_cv_sentinel [2, 4] (by simp)).1 (by norm_num [List.sum_cons])

/-- The model's NPV (lines 102-110) is exactly `npvOfFlows` applied to
the net-cash-flow column and the fractional annualized discount rate
`discount_rate / 100`. -/
lemma npvOf_eq_npvOfFlows (p : Params) :
    npvOf p = npvOfFlows (ncfList p) (p.discount_rate / 100) := by
  unfold npvOf npvOfFlows pvCashFlow pvFactor monthlyDiscount
  have hlen : (ncfList p).length = 60 := by simp [ncfList]
  rw [hlen]
  apply Finset.sum_congr rfl
  intro i hi
  have hib : i < 60 := Finset.mem_range.mp hi
  have hb : i < (ncfList p).length := by omega
  have hget : (ncfList p).getD i 0 = netCashFlow p (i + 1) := by
    rw [List.getD_eq_getElem _ _ hb]
    simp [ncfList]
  rw [hget]
  congr 1
